import Mathlib

/-!
Verification of the PennyWise statement-ingestion pipeline and analytics engine.

A shallow embedding, in Lean 4, of the core logic of the PennyWise.wtf
repository (`DataProcessing/database.py`, `DataProcessing/parser.py`,
`DataProcessing/preprocess.py`, `Agent/tools.py`), together with theorems
settling the specification claims about it.

Modelling conventions:
* Python strings are modelled as `String` / `List Char` (inputs are ASCII);
  Python's `str.strip`, `str.lower`, substring `in`, and truthiness
  (`if s:` — empty string falsy) are re-implemented on `List Char`/`String`
  so that all definitions reduce in the kernel.
* `float` amounts are modelled as exact rationals `ℚ`; Python's
  `round(x, n)` is modelled as rounding to `n` decimal digits on `ℚ`.
* SQLite tables are modelled as Lean lists of records; the `UNIQUE`
  constraint on `txn_hash` is modelled by the insert loop's collision
  check, and `INSERT OR REPLACE` as an upsert on the key column.
* The MD5 digest of `_generate_txn_hash` is modelled as the identity
  digest on its pre-image string `f"{date}|{description}|{amount}"`
  (a collision-free digest; hash-equality coincides with pre-image
  equality).
* The `re` regular-expression cascade of `preprocess.py` and the
  transaction-line pattern of `parser.py` are executed by a faithful
  backtracking matcher (leftmost match, left-biased alternation, greedy /
  lazy quantifiers, word boundaries, capture groups and back-references,
  `re.IGNORECASE` where the source sets it), defined below.
-/

/-! ## Python string primitives over `List Char` -/

/-- Python `\s` (ASCII range): the whitespace characters recognised by
`str.strip`, `\s` and `str.split` on the ASCII inputs of this pipeline. -/
def pyWS (c : Char) : Bool :=
  c = ' ' ∨ c = '\t' ∨ c = '\n' ∨ c = '\r' ∨ c = '\x0b' ∨ c = '\x0c'

/-- ASCII lower-casing of one character (Python `str.lower` on ASCII). -/
def pyLowerChar (c : Char) : Char :=
  if 'A' ≤ c ∧ c ≤ 'Z' then Char.ofNat (c.toNat + 32) else c

/-- Python `str.lower` (ASCII). -/
def pyLower (s : String) : String := String.mk (s.toList.map pyLowerChar)

/-- Python `str.strip` on a character list. -/
def pyStripL (l : List Char) : List Char :=
  ((l.dropWhile pyWS).reverse.dropWhile pyWS).reverse

/-- Python `str.strip` on a string. -/
def pyStrip (s : String) : String := String.mk (pyStripL s.toList)

/-- List prefix test (Python `str.startswith`). -/
def isPrefixL : List Char → List Char → Bool
  | [], _ => true
  | _ :: _, [] => false
  | a :: l, b :: m => a = b && isPrefixL l m

/-- Python `str.startswith`. -/
def pyStartsWith (s prefixStr : String) : Bool := isPrefixL prefixStr.toList s.toList

/-- List infix test (Python substring operator `in`). -/
def isInfixL (needle : List Char) : List Char → Bool
  | [] => isPrefixL needle []
  | c :: l => isPrefixL needle (c :: l) || isInfixL needle l

/-- Python substring test `needle in s`. -/
def pyContains (s needle : String) : Bool := isInfixL needle.toList s.toList

/-- Python truthiness of an optional string (`None` and `""` are falsy). -/
def optTruthy (o : Option String) : Bool :=
  match o with
  | none => false
  | some s => s ≠ ""

/-- Decimal digits of a natural number, least significant first (`fuel`
bounds the digit count; callers pass `n + 1`). -/
def natDigitsRev : Nat → Nat → List Char
  | 0, _ => []
  | f + 1, n => Char.ofNat (48 + n % 10) :: (if n < 10 then [] else natDigitsRev f (n / 10))

/-- Decimal rendering of a natural number. -/
def natRepr (n : Nat) : String := String.mk ((natDigitsRev (n + 1) n).reverse)

/-- An injective rendering of a rational number, standing in for Python's
`f"{amount}"` formatting of the float amount: sign, numerator and
denominator of the reduced fraction. -/
def ratRepr (q : ℚ) : String :=
  (if q.num < 0 then "-" else "") ++ natRepr q.num.natAbs ++ "/" ++ natRepr q.den

/-- Python `round(x, 2)` on exact rationals. -/
def round2 (q : ℚ) : ℚ := (round (q * 100) : ℤ) / 100

/-- Python `round(x, 1)` on exact rationals. -/
def round1 (q : ℚ) : ℚ := (round (q * 10) : ℤ) / 10

/-! ## `DataProcessing/database.py` — the deduplicating ledger store

`init_db` creates the `transactions` table (with `txn_hash TEXT UNIQUE`)
and the `imported_files` table (with `filename TEXT UNIQUE`); they are
modelled as the two list-valued fields of `DB`, with `initDB` the freshly
created empty state. -/

/-- A row of the `transactions` table. -/
structure StoredTxn where
  date : String
  description : String
  amount : ℚ
  category : String
  card_type : Option String
  bank : Option String
  txn_hash : String
  source_file : Option String
deriving DecidableEq

/-- A row of the `imported_files` table. -/
structure ImportedFile where
  filename : String
  filepath : String
  transaction_count : Nat
deriving DecidableEq

/-- The SQLite database state: the two tables created by `init_db`. -/
structure DB where
  transactions : List StoredTxn
  imported_files : List ImportedFile
deriving DecidableEq

/-- Models `init_db` on a fresh database file: both tables empty. -/
def initDB : DB := ⟨[], []⟩

/-- An input row of the DataFrame passed to `save_transactions`
(`Date` already rendered by `strftime('%Y-%m-%d')` into `date`). -/
structure InTxn where
  date : String
  description : String
  amount : ℚ
  category : String
deriving DecidableEq

/-- Models `_generate_txn_hash(date, description, amount)`: the digest of
`f"{date}|{description}|{amount}"`.  The MD5 step is modelled as the
identity digest on the pre-image string. -/
def generate_txn_hash (date description : String) (amount : ℚ) : String :=
  date ++ "|" ++ description ++ "|" ++ ratRepr amount

/-- The dedup hash of an input row. -/
def rowHash (r : InTxn) : String := generate_txn_hash r.date r.description r.amount

/-- Models `is_file_imported(filename)`: `SELECT 1 FROM imported_files WHERE filename = ?`. -/
def is_file_imported (db : DB) (filename : String) : Bool :=
  db.imported_files.any (fun f => f.filename = filename)

/-- The `transactions` row built by the `INSERT` statement of
`save_transactions` for one input row. -/
def storedOf (card_type bank source_file : Option String) (r : InTxn) : StoredTxn :=
  { date := r.date, description := r.description, amount := r.amount,
    category := r.category, card_type := card_type, bank := bank,
    txn_hash := rowHash r, source_file := source_file }

/-- The row-insert loop of `save_transactions`: for each row, compute the
hash and attempt the `INSERT`; an `IntegrityError` raised by the `UNIQUE`
constraint on `txn_hash` increments `skipped_count`, a successful insert
appends the row and increments `saved_count`.  Returns
`(saved_count, skipped_count, final transactions table)`. -/
def insertRows (card_type bank source_file : Option String) :
    List InTxn → List StoredTxn → Nat × Nat × List StoredTxn
  | [], txns => (0, 0, txns)
  | r :: rs, txns =>
    let h := rowHash r
    if txns.any (fun t => t.txn_hash = h) then
      let (saved, skipped, txns') := insertRows card_type bank source_file rs txns
      (saved, skipped + 1, txns')
    else
      let (saved, skipped, txns') := insertRows card_type bank source_file rs
        (txns ++ [storedOf card_type bank source_file r])
      (saved + 1, skipped, txns')

/-- Models `INSERT OR REPLACE INTO imported_files` keyed by the `UNIQUE` column
`filename`. -/
def upsertImportedFile (files : List ImportedFile) (f : ImportedFile) : List ImportedFile :=
  if files.any (fun g => g.filename = f.filename) then
    files.map (fun g => if g.filename = f.filename then f else g)
  else
    files ++ [f]

/-- The result dict of `save_transactions`. -/
structure SaveResult where
  saved_count : Nat
  skipped_count : Nat
  already_imported : Bool
deriving DecidableEq

/-- Models `save_transactions(df, source_file, card_type, bank)`:
(1) if `source_file` is truthy and already registered, return immediately
with `saved_count=0, skipped_count=0, already_imported=True` without
touching any row; (2) otherwise run the per-row insert loop; (3) if
`source_file` is truthy, upsert its registry row with the final
`saved_count`.  Returns the result dict together with the new database
state. -/
def save_transactions (db : DB) (rows : List InTxn) (source_file : Option String)
    (card_type bank : Option String) : SaveResult × DB :=
  if optTruthy source_file ∧ is_file_imported db (source_file.getD "") then
    (⟨0, 0, true⟩, db)
  else
    let (saved, skipped, txns) := insertRows card_type bank source_file rows db.transactions
    let files :=
      if optTruthy source_file then
        upsertImportedFile db.imported_files ⟨source_file.getD "", source_file.getD "", saved⟩
      else
        db.imported_files
    (⟨saved, skipped, false⟩, ⟨txns, files⟩)

/-- One call to `save_transactions`, as queued by an arbitrary caller. -/
structure SaveCall where
  rows : List InTxn
  source_file : Option String
  card_type : Option String
  bank : Option String

/-- Run a sequence of `save_transactions` calls against a database state. -/
def runSaves : DB → List SaveCall → DB
  | db, [] => db
  | db, c :: cs => runSaves (save_transactions db c.rows c.source_file c.card_type c.bank).2 cs

/-- The `dedup_hash`-uniqueness invariant of the `transactions` table. -/
def hashesDistinct (txns : List StoredTxn) : Prop :=
  (txns.map (fun t => t.txn_hash)).Nodup

instance (txns : List StoredTxn) : Decidable (hashesDistinct txns) := by
  unfold hashesDistinct; infer_instance

/-- Models `run_query(sql)`: refuse anything whose stripped, lower-cased text does
not start with `select`, otherwise run it.  The execution itself is the
storage engine's job, abstracted as `exec`; the guard runs before it. -/
def run_query (exec : String → List (List String)) (sql : String) :
    Except String (List (List String)) :=
  if pyStartsWith (pyLower (pyStrip sql)) "select" then
    .ok (exec sql)
  else
    .error "Only SELECT queries allowed"

/-! ## A backtracking regular-expression engine (Python `re` semantics)

Supports exactly the constructs used by `SANITIZE_PATTERNS`, the
whitespace/tag collapses of `_sanitize_description`, and
`TRANSACTION_LINE_PATTERN` of `parser.py`: character classes, sequencing,
left-biased alternation, greedy and lazy star, word boundaries `\b`,
capture groups and back-references.  Matching prefers alternatives in
Python's backtracking order (leftmost alternative first, greedy
quantifiers longest-first, lazy quantifiers shortest-first) and
`re.sub` replaces leftmost non-overlapping matches. -/

/-- Regular expressions over characters. -/
inductive Regex where
  /-- empty pattern -/
  | eps : Regex
  /-- single-character class -/
  | cls : (Char → Bool) → Regex
  /-- concatenation -/
  | seq : Regex → Regex → Regex
  /-- alternation, left alternative preferred -/
  | alt : Regex → Regex → Regex
  /-- greedy Kleene star -/
  | starG : Regex → Regex
  /-- lazy Kleene star -/
  | starL : Regex → Regex
  /-- capture group `(...)` with index `i` -/
  | grp : Nat → Regex → Regex
  /-- back-reference `\i` -/
  | backref : Nat → Regex
  /-- word boundary `\b` -/
  | wordB : Regex

/-- A matcher state: the previous character (for `\b`), the remaining
input, and the capture-group bindings (latest first). -/
structure MState where
  prev : Option Char
  rest : List Char
  caps : List (Nat × List Char)

/-- Python `\w` on ASCII input. -/
def wordChar (c : Char) : Bool := c.isAlphanum || c = '_'

/-- Is the character at a position (or nothing) a word character? -/
def isWordOpt (o : Option Char) : Bool :=
  match o with
  | none => false
  | some c => wordChar c

/-- The backtracking matcher in continuation style: `reMatch fuel r st k`
returns the first success of `k` over the completions of `r` from `st`,
in Python's backtracking order.  `fuel` bounds the recursion depth along
a single backtracking path; every caller below supplies fuel far larger
than any path the concrete patterns can take. -/
def reMatch : Nat → Regex → MState → (MState → Option MState) → Option MState
  | 0, _, _, _ => none
  | fuel + 1, r, st, k =>
    match r with
    | .eps => k st
    | .cls p =>
      match st.rest with
      | [] => none
      | c :: rest' => if p c then k ⟨some c, rest', st.caps⟩ else none
    | .seq a b => reMatch fuel a st (fun st' => reMatch fuel b st' k)
    | .alt a b => (reMatch fuel a st k) <|> (reMatch fuel b st k)
    | .starG body =>
      (reMatch fuel body st (fun st' =>
        if st'.rest.length < st.rest.length then reMatch fuel (.starG body) st' k else none))
        <|> k st
    | .starL body =>
      k st <|>
      (reMatch fuel body st (fun st' =>
        if st'.rest.length < st.rest.length then reMatch fuel (.starL body) st' k else none))
    | .grp i body =>
      reMatch fuel body st (fun st' =>
        k ⟨st'.prev, st'.rest, (i, st.rest.take (st.rest.length - st'.rest.length)) :: st'.caps⟩)
    | .backref i =>
      match st.caps.lookup i with
      | none => none
      | some captured =>
        if isPrefixL captured st.rest then
          match captured with
          | [] => k st
          | _ =>
            k ⟨(captured.getLast? <|> st.prev), st.rest.drop captured.length, st.caps⟩
        else none
    | .wordB =>
      if isWordOpt st.prev ≠ isWordOpt st.rest.head? then k st else none

/-- Fuel that over-approximates every backtracking path of the fixed
patterns below on an input of length `n`. -/
def reFuel (n : Nat) : Nat := 200 * (n + 5)

/-- Attempt a match of `r` starting exactly at the given state (the
continuation accepts wherever the pattern completes, as `re` does for an
unanchored pattern). -/
def reMatchHere (r : Regex) (prev : Option Char) (s : List Char) : Option MState :=
  reMatch (reFuel s.length) r ⟨prev, s, []⟩ some

/-- Attempt a match of `r` against the entire input (Python
`re.match` with a final `$`). -/
def reFullMatch (r : Regex) (s : List Char) : Option MState :=
  reMatch (reFuel s.length) r ⟨none, s, []⟩
    (fun st => if st.rest.isEmpty then some st else none)

/-- One piece of a `re.sub` replacement template: a literal, or a
back-reference `\i` to a capture group. -/
inductive ReplPart where
  | lit : String → ReplPart
  | grpRef : Nat → ReplPart

/-- Expand a replacement template against the captures of a match. -/
def expandRepl (parts : List ReplPart) (caps : List (Nat × List Char)) : List Char :=
  parts.flatMap (fun p =>
    match p with
    | .lit s => s.toList
    | .grpRef i => (caps.lookup i).getD [])

/-- The scanning loop of `re.sub`: at each position try a match; on a
non-empty match emit the expanded replacement and continue after the
match, otherwise move forward one character.  (None of the patterns used
here can match the empty string; an empty match is treated as no match so
that the loop always advances.) -/
def pySubGo : Nat → Regex → List ReplPart → Option Char → List Char → List Char
  | 0, _, _, _, rest => rest
  | _ + 1, _, _, _, [] => []
  | fuel + 1, r, repl, prev, c :: rest =>
    match reMatchHere r prev (c :: rest) with
    | some st' =>
      if st'.rest.length < (c :: rest).length then
        expandRepl repl st'.caps ++ pySubGo fuel r repl st'.prev st'.rest
      else
        c :: pySubGo fuel r repl (some c) rest
    | none => c :: pySubGo fuel r repl (some c) rest

/-- Python `re.sub(r, repl, s)` on a character list. -/
def pySub (r : Regex) (repl : List ReplPart) (s : List Char) : List Char :=
  pySubGo (s.length + 1) r repl none s

/-! ### Pattern combinators mirroring the `re` syntax -/

/-- A literal character. -/
def rchr (c : Char) : Regex := .cls (fun x => x = c)

/-- A literal character under `re.IGNORECASE` (ASCII case folding). -/
def rchrCI (c : Char) : Regex := .cls (fun x => pyLowerChar x = pyLowerChar c)

/-- Concatenation of a list of patterns. -/
def rcat (rs : List Regex) : Regex := rs.foldr .seq .eps

/-- A literal string. -/
def rstr (s : String) : Regex := rcat (s.toList.map rchr)

/-- A literal string under `re.IGNORECASE`. -/
def rstrCI (s : String) : Regex := rcat (s.toList.map rchrCI)

/-- Greedy `r?`. -/
def ropt (r : Regex) : Regex := .alt r .eps

/-- Models `r{n}`. -/
def rrep (n : Nat) (r : Regex) : Regex := rcat (List.replicate n r)

/-- Greedy `r{n,}`. -/
def ratLeast (n : Nat) (r : Regex) : Regex := .seq (rrep n r) (.starG r)

/-- Greedy `r{m,n}`. -/
def rbetween (m n : Nat) (r : Regex) : Regex :=
  .seq (rrep m r) (rcat (List.replicate (n - m) (ropt r)))

/-- Greedy `r+`. -/
def rplus (r : Regex) : Regex := .seq r (.starG r)

/-- Models `\d` (ASCII input). -/
def rdigit : Regex := .cls Char.isDigit

/-- Models `\s`. -/
def rws : Regex := .cls pyWS

/-- Models `\w`. -/
def rwordc : Regex := .cls wordChar

/-! ## `DataProcessing/preprocess.py` — the sanitizer cascade

Each pattern below transcribes one entry of `SANITIZE_PATTERNS`, in
order; the third `re.IGNORECASE` element of the source tuples is
reflected by the `CI` combinators. -/

/-- The class `[-\s]`. -/
def clsDashWS : Regex := .cls (fun c => c = '-' || pyWS c)

/-- The class `[-.\s]`. -/
def clsDashDotWS : Regex := .cls (fun c => c = '-' || c = '.' || pyWS c)

/-- Models `\b\d{4}[-\s]?\d{4}[-\s]?\d{4}[-\s]?\d{4}\b` (full/partial card numbers). -/
def patCard16 : Regex :=
  rcat [.wordB, rrep 4 rdigit, ropt clsDashWS, rrep 4 rdigit, ropt clsDashWS,
        rrep 4 rdigit, ropt clsDashWS, rrep 4 rdigit, .wordB]

/-- Models `\b(?:ending\s*(?:in)?|last\s*4|x{4,})\s*\d{4}\b` (masked card references). -/
def patCardMasked : Regex :=
  rcat [.wordB,
        .alt (rcat [rstr "ending", .starG (.cls pyWS), ropt (rstr "in")])
          (.alt (rcat [rstr "last", .starG (.cls pyWS), rchr '4'])
            (ratLeast 4 (rchr 'x'))),
        .starG (.cls pyWS), rrep 4 rdigit, .wordB]

/-- Models `\bCard\s+\d{4}\b` with `re.IGNORECASE`. -/
def patCardNum : Regex :=
  rcat [.wordB, rstrCI "Card", rplus (.cls pyWS), rrep 4 rdigit, .wordB]

/-- Models `\b(?:acct?|account)\.?\s*#?\s*\d{6,}\b` with `re.IGNORECASE`. -/
def patAccount : Regex :=
  rcat [.wordB,
        .alt (rcat [rstrCI "acc", ropt (rchrCI 't')]) (rstrCI "account"),
        ropt (rchr '.'), .starG (.cls pyWS), ropt (rchr '#'), .starG (.cls pyWS),
        ratLeast 6 rdigit, .wordB]

/-- Models `[A-Z0-9]` under `re.IGNORECASE`: ASCII letters of either case and digits. -/
def clsAlnumCI : Regex := .cls (fun c => c.isAlpha || c.isDigit)

/-- Models `\b(?:trans(?:action)?|ref(?:erence)?|conf(?:irmation)?|trace|auth(?:orization)?)\s*#?\s*:?\s*[A-Z0-9]{6,}\b`
with `re.IGNORECASE` (transaction / reference / confirmation codes). -/
def patRefCode : Regex :=
  rcat [.wordB,
        .alt (rcat [rstrCI "trans", ropt (rstrCI "action")])
          (.alt (rcat [rstrCI "ref", ropt (rstrCI "erence")])
            (.alt (rcat [rstrCI "conf", ropt (rstrCI "irmation")])
              (.alt (rstrCI "trace")
                (rcat [rstrCI "auth", ropt (rstrCI "orization")])))),
        .starG (.cls pyWS), ropt (rchr '#'), .starG (.cls pyWS), ropt (rchr ':'),
        .starG (.cls pyWS), ratLeast 6 clsAlnumCI, .wordB]

/-- Models `\b(?:check|chk|cheque)\s*#?\s*:?\s*\d{3,}\b` with `re.IGNORECASE`. -/
def patCheck : Regex :=
  rcat [.wordB,
        .alt (rstrCI "check") (.alt (rstrCI "chk") (rstrCI "cheque")),
        .starG (.cls pyWS), ropt (rchr '#'), .starG (.cls pyWS), ropt (rchr ':'),
        .starG (.cls pyWS), ratLeast 3 rdigit, .wordB]

/-- Models `\+?1?[-.\s]?\(?\d{3}\)?[-.\s]?\d{3}[-.\s]?\d{4}\b` (phone numbers). -/
def patPhone : Regex :=
  rcat [ropt (rchr '+'), ropt (rchr '1'), ropt clsDashDotWS, ropt (rchr '('),
        rrep 3 rdigit, ropt (rchr ')'), ropt clsDashDotWS, rrep 3 rdigit,
        ropt clsDashDotWS, rrep 4 rdigit, .wordB]

/-- Models `\b[A-Za-z0-9._%+-]+@[A-Za-z0-9.-]+\.[A-Z|a-z]{2,}\b` (email addresses);
note the literal `|` inside the final class. -/
def patEmail : Regex :=
  rcat [.wordB,
        rplus (.cls (fun c => c.isAlpha || c.isDigit || c = '.' || c = '_' || c = '%'
          || c = '+' || c = '-')),
        rchr '@',
        rplus (.cls (fun c => c.isAlpha || c.isDigit || c = '.' || c = '-')),
        rchr '.',
        ratLeast 2 (.cls (fun c => c.isAlpha || c = '|')),
        .wordB]

/-- Models `\b\d{3}[-\s]?\d{2}[-\s]?\d{4}\b` (SSN-shaped numbers). -/
def patSSN : Regex :=
  rcat [.wordB, rrep 3 rdigit, ropt clsDashWS, rrep 2 rdigit, ropt clsDashWS,
        rrep 4 rdigit, .wordB]

/-- Models `\b\d{8,}\b` (generic 8+ digit runs). -/
def patLongNum : Regex := rcat [.wordB, ratLeast 8 rdigit, .wordB]

/-- Models `\b[A-Z]{2,}[0-9]{6,}\b` (alphanumeric reference codes, case-sensitive). -/
def patAlnumRef1 : Regex :=
  rcat [.wordB, ratLeast 2 (.cls Char.isUpper), ratLeast 6 rdigit, .wordB]

/-- Models `\b[0-9]{3,}[A-Z]{2,}[0-9]{2,}\b` (alphanumeric reference codes, case-sensitive). -/
def patAlnumRef2 : Regex :=
  rcat [.wordB, ratLeast 3 rdigit, ratLeast 2 (.cls Char.isUpper), ratLeast 2 rdigit, .wordB]

/-- Models `SANITIZE_PATTERNS`: the ordered substitution cascade with its
replacement tags. -/
def SANITIZE_PATTERNS : List (Regex × String) :=
  [(patCard16, "[CARD]"),
   (patCardMasked, "[CARD]"),
   (patCardNum, "[CARD]"),
   (patAccount, "[ACCOUNT]"),
   (patRefCode, "[REF]"),
   (patCheck, "[CHECK]"),
   (patPhone, "[PHONE]"),
   (patEmail, "[EMAIL]"),
   (patSSN, "[SSN]"),
   (patLongNum, "[ID]"),
   (patAlnumRef1, "[REF]"),
   (patAlnumRef2, "[REF]")]

/-- One pass of `re.sub(r'\s+', ' ', result)`: `inWS` records whether the
previous character was part of a whitespace run already emitted as `' '`. -/
def collapseWSGo (inWS : Bool) : List Char → List Char
  | [] => []
  | c :: cs =>
    if pyWS c then
      if inWS then collapseWSGo true cs else ' ' :: collapseWSGo true cs
    else
      c :: collapseWSGo false cs

/-- Models `re.sub(r'\s+', ' ', result)`: collapse each maximal whitespace run
to a single space. -/
def collapseWS (l : List Char) : List Char := collapseWSGo false l

/-- Models `(\[\w+\])(?:\s*\1)+`: a bracket tag, captured as group 1, followed by
one or more repetitions of optional whitespace and the same tag. -/
def patTagRun : Regex :=
  .seq (.grp 1 (rcat [rchr '[', rplus rwordc, rchr ']']))
    (rplus (.seq (.starG (.cls pyWS)) (.backref 1)))

/-- Models `_sanitize_description(text)`: apply every entry of
`SANITIZE_PATTERNS` in order, collapse whitespace and strip, then
collapse runs of an identical repeated bracket tag to one occurrence. -/
def sanitize_description (text : String) : String :=
  let result := SANITIZE_PATTERNS.foldl
    (fun acc pr => pySub pr.1 [ReplPart.lit pr.2] acc) text.toList
  let result := pyStripL (collapseWS result)
  let result := pySub patTagRun [ReplPart.grpRef 1] result
  String.mk result

/-! ## `DataProcessing/parser.py` — the multi-section statement grammar -/

/-- Digits-to-number (`int` on a digit string). -/
def natOfDigits (l : List Char) : Nat :=
  l.foldl (fun n c => n * 10 + (c.toNat - '0'.toNat)) 0

/-- The exact rational value of an unsigned decimal digit string
`<int-part>.<frac-part>`: `intpart.fracpart` as a fraction. -/
def decimalToRat (l : List Char) : ℚ :=
  let ip := l.takeWhile (fun c => c ≠ '.')
  let fp := (l.dropWhile (fun c => c ≠ '.')).drop 1
  mkRat (natOfDigits ip * 10 ^ fp.length + natOfDigits fp) (10 ^ fp.length)

/-- Models `float(s.replace(',', ''))` on an amount string of the shape matched
by the transaction-line pattern (optional sign, digits, exactly two
decimals): the exact rational value of the printed decimal. -/
def amountToRat (l : List Char) : ℚ :=
  let l := l.filter (fun c => c ≠ ',')
  match l with
  | '-' :: rest => -(decimalToRat rest)
  | _ => decimalToRat l

/-- The amount shape `-?\d{1,3}(?:,\d{3})*(?:\.\d{2})` of
`TRANSACTION_LINE_PATTERN`. -/
def patAmount : Regex :=
  rcat [ropt (rchr '-'), rbetween 1 3 rdigit,
        .starG (rcat [rchr ',', rrep 3 rdigit]), rchr '.', rrep 2 rdigit]

/-- Models `.` (no `re.DOTALL`): any character but a newline. -/
def clsDot : Regex := .cls (fun c => c ≠ '\n')

/-- Models `TRANSACTION_LINE_PATTERN`:
`^(\d{2}/\d{2})\s+(.*?)\s+(-?\d{1,3}(?:,\d{3})*(?:\.\d{2}))\s+(-?\d{1,3}(?:,\d{3})*(?:\.\d{2}))$`
(the anchors are realised by matching the full line). -/
def TRANSACTION_LINE_PATTERN : Regex :=
  rcat [.grp 1 (rcat [rrep 2 rdigit, rchr '/', rrep 2 rdigit]),
        rplus (.cls pyWS),
        .grp 2 (.starL clsDot),
        rplus (.cls pyWS),
        .grp 3 patAmount,
        rplus (.cls pyWS),
        .grp 4 patAmount]

/-- Models `TRANSACTION_LINE_PATTERN.match(line)` followed by `match.groups()`
and the conversions `map(int, date_mmdd.split("/"))` and
`float(amount.replace(',', ''))`: the month, day, raw description and the
two amounts of a matching line. -/
def matchTransactionLine (line : String) : Option (Nat × Nat × String × ℚ × ℚ) :=
  match reFullMatch TRANSACTION_LINE_PATTERN line.toList with
  | none => none
  | some st =>
    let datePart := (st.caps.lookup 1).getD []
    some (natOfDigits (datePart.take 2), natOfDigits (datePart.drop 3),
      String.mk ((st.caps.lookup 2).getD []),
      amountToRat ((st.caps.lookup 3).getD []),
      amountToRat ((st.caps.lookup 4).getD []))

/-- The `year_info` dict produced by `_extract_year_info` from a
billing-range header. -/
structure YearInfo where
  start_year : Nat
  end_year : Nat
  start_month : Nat
deriving DecidableEq

/-- The year choice of `_parse_transaction_line`: the start year when the
header's years agree, otherwise the start year for a month at or after
the header's start month and the end year below it. -/
def chooseYear (yi : YearInfo) (month : Nat) : Nat :=
  if yi.start_year = yi.end_year then yi.start_year
  else if month ≥ yi.start_month then yi.start_year
  else yi.end_year

/-- Gregorian leap year (as `datetime` uses). -/
def isLeap (y : Nat) : Bool := (y % 4 = 0 ∧ y % 100 ≠ 0) ∨ y % 400 = 0

/-- Days in a month (as `datetime` validates). -/
def daysInMonth (y m : Nat) : Nat :=
  if m = 2 then (if isLeap y then 29 else 28)
  else if m = 4 ∨ m = 6 ∨ m = 9 ∨ m = 11 then 30
  else 31

/-- Calendar validity as checked by the `datetime(year, month, day)`
constructor (which raises `ValueError` outside these bounds). -/
def isValidDate (y m d : Nat) : Bool :=
  1 ≤ y ∧ y ≤ 9999 ∧ 1 ≤ m ∧ m ≤ 12 ∧ 1 ≤ d ∧ d ≤ daysInMonth y m

/-- A draft transaction row produced by the parser. -/
structure DraftTxn where
  year : Nat
  month : Nat
  day : Nat
  description : String
  amount : ℚ
  balance : ℚ
deriving DecidableEq

/-- Models `_parse_transaction_line(match, year_info)` after the regex groups
have been read: choose the year, build the row, and return `None`
(skipping the line) when the `datetime` constructor raises. -/
def parse_transaction_line (mm dd : Nat) (desc : String) (amount balance : ℚ)
    (yi : YearInfo) : Option DraftTxn :=
  let year := chooseYear yi mm
  if isValidDate year mm dd then
    some ⟨year, mm, dd, pyStrip desc, amount, balance⟩
  else
    none

/-- Models `re.match(r"^\d{2}/\d{2}", line)`: the quick non-transaction-line skip. -/
def startsWithMMDD (l : List Char) : Bool :=
  match l with
  | a :: b :: s :: c :: d :: _ => a.isDigit && b.isDigit && s = '/' && c.isDigit && d.isDigit
  | _ => false

/-- The per-line body of `_parse_section_lines`: strip the line, skip it
unless it starts with `MM/DD`, skip it unless the full pattern matches,
then parse it (which may still skip it on an invalid date). -/
def parse_section_line (yi : YearInfo) (rawLine : String) : Option DraftTxn :=
  let line := pyStrip rawLine
  if startsWithMMDD line.toList then
    match matchTransactionLine line with
    | none => none
    | some (mm, dd, desc, amount, balance) => parse_transaction_line mm dd desc amount balance yi
  else
    none

/-- Models `_parse_section_lines` over the list of lines of a section: each line
contributes at most one row; skipped lines contribute nothing. -/
def parse_section_lines (yi : YearInfo) (lines : List String) : List DraftTxn :=
  lines.filterMap (parse_section_line yi)

/-- Models `section_text.strip().split("\n")`. -/
def splitOnNLGo (cur : List Char) : List Char → List (List Char)
  | [] => [cur.reverse]
  | c :: cs => if c = '\n' then cur.reverse :: splitOnNLGo [] cs else splitOnNLGo (c :: cur) cs

/-- Models `_parse_section_lines(section_text, year_info)` from the raw section
text. -/
def parse_section (yi : YearInfo) (section_text : String) : List DraftTxn :=
  parse_section_lines yi ((splitOnNLGo [] (pyStripL section_text.toList)).map String.mk)

/-! ## The credit-dialect line grammar (absent from the checked-in
sources: `app.py` invokes `parse_single_statement(path, statement_type)`
with a credit/debit dialect selector, but `DataProcessing/parser.py`
only contains the multi-section grammar, so the credit dialect is
modelled from the specification). -/

/-- Modelled from the spec: the fixed credit-keyword set of the
credit-dialect sign inference (the keyword list of §4.1, absent from the
checked-in parser). -/
def CREDIT_KEYWORDS : List String :=
  ["payment", "return", "refund", "credit", "reversal", "cashback"]

/-- Modelled from the spec: "if the description contains any keyword from
a fixed credit-keyword set … as a substring" — a case-insensitive
substring test, as the spec's own example matches "PAYMENT" against
`payment`. -/
def has_credit_keyword (description : String) : Bool :=
  CREDIT_KEYWORDS.any (fun k => pyContains (pyLower description) k)

/-- Modelled from the spec: credit-dialect sign inference — inflow
(positive) on a keyword match, otherwise the negative of the printed
magnitude. -/
def credit_sign_amount (description : String) (magnitude : ℚ) : ℚ :=
  if has_credit_keyword description then magnitude else -magnitude

/-- Modelled from the spec: credit/debit year inference — the header year
minus one if the transaction's month is numerically greater than the
header's month, otherwise the header year. -/
def credit_line_year (header_year header_month txn_month : Nat) : Nat :=
  if txn_month > header_month then header_year - 1 else header_year

/-- A credit-dialect draft transaction (no balance column). -/
structure CreditTxn where
  year : Nat
  month : Nat
  day : Nat
  description : String
  amount : ℚ
deriving DecidableEq

/-- Modelled from the spec: parsing one credit-dialect transaction line
`MM/DD <description> <amount>` under a statement-header date — year
inference, calendar validation (an invalid date skips the line), and
keyword sign inference. -/
def parse_credit_line (header_year header_month mm dd : Nat) (desc : String)
    (magnitude : ℚ) : Option CreditTxn :=
  let y := credit_line_year header_year header_month mm
  if isValidDate y mm dd then
    some ⟨y, mm, dd, desc, credit_sign_amount desc magnitude⟩
  else
    none

/-! ## `DataProcessing/preprocess.py` — cache-first categorization -/

/-- Models `CATEGORIES` from `config.py`: the fixed category vocabulary. -/
def CATEGORIES : List String :=
  ["groceries", "dining", "transport", "subscriptions",
   "utilities", "shopping", "entertainment", "health",
   "rent", "income", "fees", "transfer", "other"]

/-- A decoded JSON value, as `json.loads` can produce one (numbers are
modelled as integers; only their dynamic type matters here). -/
inductive PyJson where
  | null : PyJson
  | bool : Bool → PyJson
  | num : Int → PyJson
  | str : String → PyJson
  | arr : List PyJson → PyJson
  | obj : List (String × PyJson) → PyJson

/-- Python `len` on a decoded JSON value: defined for lists, strings and
dicts, a `TypeError` otherwise. -/
def pyLen : PyJson → Option Nat
  | .arr l => some l.length
  | .str s => some s.length
  | .obj m => some m.length
  | _ => none

/-- The element coercion `c if c in CATEGORIES else 'other'` of
`_parse_llm_response` applied to a decoded JSON element: only a string
equal to a vocabulary label survives. -/
def clampCategory : PyJson → String
  | .str s => if s ∈ CATEGORIES then s else "other"
  | _ => "other"

/-- The same coercion applied to a Python string (the elements obtained
by iterating a `str` or the keys obtained by iterating a `dict`). -/
def clampStr (s : String) : String := if s ∈ CATEGORIES then s else "other"

/-- Models `_parse_llm_response(response_text, expected_count)`.  The markdown
fence stripping and `json.loads` are modelled by the `decoded` argument:
`none` when `json.loads` raises `JSONDecodeError` (the caught branch
returning `['other'] * expected_count`), `some v` when it returns the
value `v`.  The uncaught dynamic errors of the remaining code are
returned as `.error`: `len()` on a number/bool/null raises `TypeError`;
`.extend` on a short non-list raises `AttributeError`; slicing a long
dict raises `TypeError`. -/
def parse_llm_response (decoded : Option PyJson) (expected_count : Nat) :
    Except String (List String) :=
  match decoded with
  | none => .ok (List.replicate expected_count "other")
  | some v =>
    match pyLen v with
    | none => .error "TypeError: object has no len()"
    | some n =>
      if n < expected_count then
        match v with
        | .arr l =>
          .ok ((l ++ List.replicate (expected_count - n) (PyJson.str "other")).map clampCategory)
        | _ => .error "AttributeError: object has no attribute extend"
      else if expected_count < n then
        match v with
        | .arr l => .ok ((l.take expected_count).map clampCategory)
        | .str s => .ok ((s.toList.take expected_count).map (fun c => clampStr (String.mk [c])))
        | _ => .error "TypeError: unhashable type: slice"
      else
        match v with
        | .arr l => .ok (l.map clampCategory)
        | .str s => .ok (s.toList.map (fun c => clampStr (String.mk [c])))
        | .obj m => .ok (m.map (fun kv => clampStr kv.1))
        | _ => .error "TypeError: unreachable"

/-- Models `merchants[i:i+batch_size]` chunking of `_categorize_with_gemini`'s
batch loop (`fuel` bounds the number of chunks; callers pass
`l.length + 1`, enough for any positive batch size). -/
def chunksOfGo (batchSize : Nat) : Nat → List String → List (List String)
  | 0, _ => []
  | _, [] => []
  | f + 1, l => l.take batchSize :: chunksOfGo batchSize f (l.drop batchSize)

/-- The batches `_categorize_with_gemini` sends for a merchant list. -/
def chunksOf (batchSize : Nat) (l : List String) : List (List String) :=
  chunksOfGo batchSize (l.length + 1) l

/-- Models `_categorize_with_gemini(merchants, batch_size)`: one external request
per batch, each parsed by `_parse_llm_response` against the batch length;
the external service is abstracted as `oracle`, giving the decoded JSON
of each response.  An uncaught dynamic error propagates. -/
def categorize_with_gemini (oracle : List String → Option PyJson) (batch_size : Nat)
    (merchants : List String) : Except String (List String) :=
  (chunksOf batch_size merchants).foldl
    (fun acc batch =>
      match acc with
      | .error e => .error e
      | .ok acc =>
        match parse_llm_response (oracle batch) batch.length with
        | .error e => .error e
        | .ok cats => .ok (acc ++ cats))
    (.ok [])

/-- Models `pd.Series.unique` on the `Description` column: unique values in
first-occurrence order. -/
def uniqueFirst (l : List String) : List String :=
  l.foldl (fun acc x => if x ∈ acc then acc else acc ++ [x]) []

/-- Python dict assignment `cache[merchant] = category` on the
merchant-category cache (an upsert keyed by the merchant text). -/
def dictSet (cache : List (String × String)) (k v : String) : List (String × String) :=
  if cache.any (fun p => p.1 = k) then
    cache.map (fun p => if p.1 = k then (k, v) else p)
  else
    cache ++ [(k, v)]

/-- The result of `categorize(df)`: the per-row `Category` column, the
merchant-category cache after the call, and the number of external
classification requests issued during the call. -/
structure CatResult where
  categories : List String
  cache : List (String × String)
  llm_requests : Nat
deriving DecidableEq

/-- Models `categorize(df)` over the `Description` column `descs` and the
persistent cache loaded by `_load_category_cache`: take the unique
merchants, classify the uncached ones through `_categorize_with_gemini`
in batches of 50 (updating and saving the cache), then map every row's
description through the cache with `fillna('other')`. -/
def categorize (oracle : List String → Option PyJson) (cache : List (String × String))
    (descs : List String) : Except String CatResult :=
  let unique_merchants := uniqueFirst descs
  let uncategorized := unique_merchants.filter (fun m => (cache.lookup m).isNone)
  if uncategorized.isEmpty then
    .ok { categories := descs.map (fun d => (cache.lookup d).getD "other"),
          cache := cache, llm_requests := 0 }
  else
    match categorize_with_gemini oracle 50 uncategorized with
    | .error e => .error e
    | .ok new_categories =>
      let cache2 := (uncategorized.zip new_categories).foldl
        (fun c p => dictSet c p.1 p.2) cache
      .ok { categories := descs.map (fun d => (cache2.lookup d).getD "other"),
            cache := cache2, llm_requests := (chunksOf 50 uncategorized).length }

/-! ## `Agent/tools.py` — the analytics query engine

`FinanceTools.df` is the ledger loaded from the store; a row is modelled
with its date as a `yyyymmdd` numeral (comparison of ISO `YYYY-MM-DD`
date strings coincides with `≤` on this encoding), and the `card_type` /
`bank` columns nullable.  (The loaded schema has no `account_last4`
column, so the `account_last4` filters — each guarded by
`'account_last4' in data.columns` — never apply and are omitted.)
`pd.Series.str.contains(case=False)` is modelled, for the literal
(metacharacter-free) patterns the spec is about, as case-insensitive
substring search. -/

/-- A ledger row as the analytics engine sees it. -/
structure ATxn where
  date : Nat
  description : String
  amount : ℚ
  category : String
  card_type : Option String
  bank : Option String
deriving DecidableEq

/-- Models `data['description'].str.contains(pat, case=False, na=False)` for a
literal pattern. -/
def pyContainsCI (s pat : String) : Bool := pyContains (pyLower s) (pyLower pat)

/-- Two-digit zero padding (`strftime` month/day fields). -/
def pad2 (n : Nat) : String := if n < 10 then "0" ++ natRepr n else natRepr n

/-- Models `date.strftime('%Y-%m')` on the `yyyymmdd` encoding. -/
def dateMonthStr (d : Nat) : String := natRepr (d / 10000) ++ "-" ++ pad2 (d / 100 % 100)

/-- Models `date.strftime('%Y-%m-%d')` on the `yyyymmdd` encoding. -/
def dateStr (d : Nat) : String :=
  natRepr (d / 10000) ++ "-" ++ pad2 (d / 100 % 100) ++ "-" ++ pad2 (d % 100)

/-- The shared filter block of `aggregate` (and `query_transactions`):
each truthy parameter restricts the frame in source order. -/
def applyFilters (df : List ATxn) (start_date end_date : Option Nat)
    (category description_contains card_type bank : Option String) : List ATxn :=
  let data := df
  let data := match start_date with
    | some sd => data.filter (fun t => sd ≤ t.date)
    | none => data
  let data := match end_date with
    | some ed => data.filter (fun t => t.date ≤ ed)
    | none => data
  let data := if optTruthy category then
      data.filter (fun t => pyLower t.category = pyLower (category.getD ""))
    else data
  let data := if optTruthy description_contains then
      data.filter (fun t => pyContainsCI t.description (description_contains.getD ""))
    else data
  let data := if optTruthy card_type then
      data.filter (fun t => match t.card_type with
        | some c => pyLower c = pyLower (card_type.getD "")
        | none => false)
    else data
  let data := if optTruthy bank then
      data.filter (fun t => match t.bank with
        | some b => pyLower b = pyLower (bank.getD "")
        | none => false)
    else data
  data

/-- Models `data['amount'].sum()`. -/
def sumAmounts (l : List ATxn) : ℚ := (l.map (fun t => t.amount)).sum

/-- Lexicographic `≤` on character lists (pandas `groupby` key order). -/
def lexLe : List Char → List Char → Bool
  | [], _ => true
  | _ :: _, [] => false
  | a :: l, b :: m => if a = b then lexLe l m else decide (a < b)

/-- Insertion into an ascending string list. -/
def insertStr (x : String) : List String → List String
  | [] => [x]
  | y :: l => if lexLe x.toList y.toList then x :: y :: l else y :: insertStr x l

/-- Ascending sort of group keys (pandas `groupby` sorts its keys). -/
def sortStrings (l : List String) : List String := l.foldr insertStr []

/-- The group keys of a frame under a key function, in `groupby` order. -/
def groupKeys (data : List ATxn) (key : ATxn → String) : List String :=
  sortStrings (uniqueFirst (data.map key))

/-- Stable insertion for a descending-by-magnitude value sort. -/
def insertAbsDesc (x : String × ℚ) : List (String × ℚ) → List (String × ℚ)
  | [] => [x]
  | y :: l => if |x.2| ≥ |y.2| then x :: y :: l else y :: insertAbsDesc x l

/-- Models `sorted(result.items(), key=lambda x: abs(x[1]), reverse=True)`
(stable). -/
def sortAbsDesc (l : List (String × ℚ)) : List (String × ℚ) := l.foldr insertAbsDesc []

/-- Stable insertion for a descending count sort. -/
def insertCountDesc (x : String × Nat) : List (String × Nat) → List (String × Nat)
  | [] => [x]
  | y :: l => if x.2 ≥ y.2 then x :: y :: l else y :: insertCountDesc x l

/-- Models `sorted(result.items(), key=lambda x: x[1], reverse=True)` (stable). -/
def sortCountDesc (l : List (String × Nat)) : List (String × Nat) := l.foldr insertCountDesc []

/-- A grouped extreme-transaction entry of `aggregate`'s `min`/`max`
operations: group key, formatted date, description, rounded amount,
category. -/
structure GroupedTxn where
  group : String
  date : String
  description : String
  amount : ℚ
  category : String
deriving DecidableEq

/-- Stable insertion for an ascending amount sort on grouped entries. -/
def insertAmountAsc (x : GroupedTxn) : List GroupedTxn → List GroupedTxn
  | [] => [x]
  | y :: l => if x.amount ≤ y.amount then x :: y :: l else y :: insertAmountAsc x l

/-- Models `sorted(transactions, key=lambda x: x['amount'])` (stable). -/
def sortAmountAsc (l : List GroupedTxn) : List GroupedTxn := l.foldr insertAmountAsc []

/-- Stable insertion for a descending magnitude sort on grouped entries. -/
def insertAmountAbsDesc (x : GroupedTxn) : List GroupedTxn → List GroupedTxn
  | [] => [x]
  | y :: l => if |x.amount| ≥ |y.amount| then x :: y :: l else y :: insertAmountAbsDesc x l

/-- Models `sorted(transactions, key=lambda x: abs(x['amount']), reverse=True)`
(stable). -/
def sortAmountAbsDesc (l : List GroupedTxn) : List GroupedTxn := l.foldr insertAmountAbsDesc []

/-- Models `data.groupby('group')['amount'].idxmin()` within one group: the first
row holding the minimum amount. -/
def firstMin (l : List ATxn) : Option ATxn :=
  l.foldl (fun acc t =>
    match acc with
    | none => some t
    | some m => if t.amount < m.amount then some t else acc) none

/-- Models `idxmax` within one group: the first row holding the maximum amount. -/
def firstMax (l : List ATxn) : Option ATxn :=
  l.foldl (fun acc t =>
    match acc with
    | none => some t
    | some m => if m.amount < t.amount then some t else acc) none

/-- The `data['group']` key column assigned by `aggregate` for a
recognised `group_by`; an unrecognised one leaves the column unassigned
(so the later `groupby('group')` raises `KeyError`). -/
def groupKeyFn (group_by : String) : Option (ATxn → String) :=
  if group_by = "month" then some (fun t => dateMonthStr t.date)
  else if group_by = "merchant" then some (fun t => t.description)
  else if group_by = "category" then some (fun t => t.category)
  else if group_by = "card_type" then some (fun t => t.card_type.getD "unknown")
  else if group_by = "bank" then some (fun t => t.bank.getD "unknown")
  else if group_by = "account_last4" then none
  else none

/-- The possible returns of `FinanceTools.aggregate`. -/
inductive AggResult where
  /-- Models `{"result": 0, "count": 0, "note": "No matching transactions"}` -/
  | noMatch (result : ℚ) (count : Nat) (note : String)
  /-- the merchant-breakdown dict of the `description_contains`+`sum` path -/
  | breakdown (total_spent total_refunds net : ℚ)
      (transaction_count expense_count refund_count : Nat)
  /-- Models `{"grouped_results": …, "count": …}` for grouped `sum`/`avg` -/
  | grouped (results : List (String × ℚ)) (count : Nat)
  /-- Models `{"grouped_results": …, "count": …}` for grouped `count` -/
  | groupedCount (results : List (String × Nat)) (count : Nat)
  /-- Models `{"transactions": …, "count": …}` for grouped `min`/`max` -/
  | groupedTxns (transactions : List GroupedTxn) (count : Nat)
  /-- Models `{"result": …, "count": …}` for ungrouped `sum`/`avg` -/
  | scalar (result : ℚ) (count : Nat)
  /-- Models `{"result": …, "count": …}` for ungrouped `count` -/
  | scalarCount (result count : Nat)
  /-- the single-row detail dict for ungrouped `min`/`max` -/
  | extremeTxn (result : ℚ) (date description : String) (amount : ℚ)
  /-- an uncaught Python exception (`KeyError`/`NameError`), surfaced as
  `{"error": …}` by `run_tool` -/
  | error (msg : String)
  /-- Python's implicit `return None` (grouped branch, unknown operation) -/
  | pyNone
deriving DecidableEq

/-- Discriminator for the merchant-breakdown result shape. -/
def AggResult.isBreakdown : AggResult → Bool
  | .breakdown _ _ _ _ _ _ => true
  | _ => false

/-- Models `FinanceTools.aggregate(operation, group_by, start_date, end_date,
category, description_contains, expenses_only, income_only, card_type,
bank)`. -/
def aggregate (df : List ATxn) (operation : String) (group_by : Option String)
    (start_date end_date : Option Nat) (category description_contains : Option String)
    (expenses_only income_only : Bool) (card_type bank : Option String) : AggResult :=
  let data := applyFilters df start_date end_date category description_contains card_type bank
  if data.isEmpty then .noMatch 0 0 "No matching transactions"
  else if optTruthy description_contains ∧ operation = "sum"
      ∧ expenses_only = false ∧ income_only = false then
    let expenses := sumAmounts (data.filter (fun t => t.amount < 0))
    let refunds := sumAmounts (data.filter (fun t => 0 < t.amount))
    let net := sumAmounts data
    .breakdown (round2 |expenses|) (round2 refunds) (round2 net)
      data.length
      (data.filter (fun t => t.amount < 0)).length
      (data.filter (fun t => 0 < t.amount)).length
  else
    let data := if expenses_only then data.filter (fun t => t.amount < 0) else data
    let data := if income_only then data.filter (fun t => 0 < t.amount) else data
    if data.isEmpty then .noMatch 0 0 "No matching transactions"
    else if optTruthy group_by then
      match groupKeyFn (group_by.getD "") with
      | none => .error "KeyError: group"
      | some key =>
        if operation = "sum" then
          .grouped (sortAbsDesc ((groupKeys data key).map
            (fun k => (k, round2 (sumAmounts (data.filter (fun t => key t = k)))))))
            data.length
        else if operation = "avg" then
          .grouped (sortAbsDesc ((groupKeys data key).map
            (fun k => (k, round2 (sumAmounts (data.filter (fun t => key t = k)) /
              ((data.filter (fun t => key t = k)).length : ℚ))))))
            data.length
        else if operation = "count" then
          .groupedCount (sortCountDesc ((groupKeys data key).map
            (fun k => (k, (data.filter (fun t => key t = k)).length))))
            data.length
        else if operation = "min" then
          let txns := (groupKeys data key).filterMap (fun k =>
            (firstMin (data.filter (fun t => key t = k))).map (fun r =>
              GroupedTxn.mk k (dateStr r.date) r.description (round2 r.amount) r.category))
          .groupedTxns (sortAmountAsc txns) txns.length
        else if operation = "max" then
          let txns := (groupKeys data key).filterMap (fun k =>
            (firstMax (data.filter (fun t => key t = k))).map (fun r =>
              GroupedTxn.mk k (dateStr r.date) r.description (round2 r.amount) r.category))
          .groupedTxns (sortAmountAbsDesc txns) txns.length
        else .pyNone
    else
      if operation = "sum" then .scalar (round2 (sumAmounts data)) data.length
      else if operation = "avg" then
        .scalar (round2 (sumAmounts data / (data.length : ℚ))) data.length
      else if operation = "count" then .scalarCount data.length data.length
      else if operation = "min" then
        match firstMin data with
        | some r => .extremeTxn (round2 r.amount) (dateStr r.date) r.description (round2 r.amount)
        | none => .error "empty"
      else if operation = "max" then
        match firstMax data with
        | some r => .extremeTxn (round2 r.amount) (dateStr r.date) r.description (round2 r.amount)
        | none => .error "empty"
      else .error "NameError: result"

/-- The returns of `FinanceTools.compare_periods`. -/
inductive CompareResult where
  /-- Models `group_by == "total"`: both period totals, difference, percent change -/
  | total (p1_dates p2_dates : String) (p1_total p2_total difference percent_change : ℚ)
  /-- otherwise: the per-category totals of each window -/
  | byCategory (p1_dates p2_dates : String) (p1 p2 : List (String × ℚ))
deriving DecidableEq

/-- Models `p.groupby('category')['amount'].sum().round(2).to_dict()`. -/
def categoryTotals (p : List ATxn) : List (String × ℚ) :=
  (sortStrings (uniqueFirst (p.map (fun t => t.category)))).map
    (fun k => (k, round2 (sumAmounts (p.filter (fun t => t.category = k)))))

/-- Models `FinanceTools.compare_periods(period1_start, period1_end,
period2_start, period2_end, group_by)`. -/
def compare_periods (df : List ATxn) (p1s p1e p2s p2e : Nat) (group_by : String) :
    CompareResult :=
  let p1 := df.filter (fun t => decide (p1s ≤ t.date) && decide (t.date ≤ p1e))
  let p2 := df.filter (fun t => decide (p2s ≤ t.date) && decide (t.date ≤ p2e))
  let dates1 := natRepr p1s ++ " to " ++ natRepr p1e
  let dates2 := natRepr p2s ++ " to " ++ natRepr p2e
  if group_by = "total" then
    let p1_total := round2 (sumAmounts p1)
    let p2_total := round2 (sumAmounts p2)
    let diff := round2 (p2_total - p1_total)
    let pct := if p1_total ≠ 0 then round1 (diff / |p1_total| * 100) else 0
    .total dates1 dates2 p1_total p2_total diff pct
  else
    .byCategory dates1 dates2 (categoryTotals p1) (categoryTotals p2)

/-! ## Shared lemmas -/

/-- Appending a row whose hash is absent keeps the hash column
duplicate-free. -/
theorem hashesDistinct_append (txns : List StoredTxn) (s : StoredTxn)
    (h : hashesDistinct txns) (hs : txns.any (fun t => t.txn_hash = s.txn_hash) = false) :
    hashesDistinct (txns ++ [s]) := by
  unfold hashesDistinct at h ⊢
  rw [List.map_append, List.nodup_append]
  refine ⟨h, List.nodup_singleton _, ?_⟩
  intro x hx hx2
  simp only [List.mem_map] at hx
  obtain ⟨t, ht, rfl⟩ := hx
  simp only [List.any_eq_false, decide_eq_true_eq] at hs
  simp only [List.map_cons, List.map_nil, List.mem_singleton] at hx2
  exact hs t ht hx2

/-- The insert loop of `save_transactions` preserves dedup-hash
uniqueness. -/
theorem insertRows_preserves (ct bk sf : Option String) (rows : List InTxn)
    (txns : List StoredTxn) (h : hashesDistinct txns) :
    hashesDistinct (insertRows ct bk sf rows txns).2.2 := by
  induction rows generalizing txns with
  | nil => exact h
  | cons r rs ih =>
    by_cases hc : txns.any (fun t => t.txn_hash = rowHash r)
    · simpa [insertRows, hc] using ih txns h
    · have hrec := ih (txns ++ [storedOf ct bk sf r])
        (hashesDistinct_append txns _ h (by simpa [storedOf] using Bool.of_not_eq_true hc))
      simpa [insertRows, hc] using hrec

/-- One `save_transactions` call preserves dedup-hash uniqueness. -/
theorem save_transactions_preserves (db : DB) (rows : List InTxn)
    (sf ct bk : Option String) (h : hashesDistinct db.transactions) :
    hashesDistinct (save_transactions db rows sf ct bk).2.transactions := by
  unfold save_transactions
  split
  · exact h
  · simpa using insertRows_preserves ct bk sf rows db.transactions h

/-- Any sequence of `save_transactions` calls preserves dedup-hash
uniqueness. -/
theorem runSaves_preserves (calls : List SaveCall) (db : DB)
    (h : hashesDistinct db.transactions) :
    hashesDistinct (runSaves db calls).transactions := by
  induction calls generalizing db with
  | nil => exact h
  | cons c cs ih =>
    exact ih _ (save_transactions_preserves db c.rows c.source_file c.card_type c.bank h)

/-- Elements produced by the `uniqueFirst` fold come from the accumulator
or the input list. -/
theorem mem_uniqueFirst_aux (l acc : List String) (a : String)
    (h : a ∈ l.foldl (fun acc x => if x ∈ acc then acc else acc ++ [x]) acc) :
    a ∈ acc ∨ a ∈ l := by
  induction l generalizing acc with
  | nil => exact Or.inl h
  | cons x xs ih =>
    simp only [List.foldl_cons] at h
    rcases ih _ h with h' | h'
    · by_cases hx : x ∈ acc
      · rw [if_pos hx] at h'
        exact Or.inl h'
      · rw [if_neg hx] at h'
        rcases List.mem_append.mp h' with h'' | h''
        · exact Or.inl h''
        · simp only [List.mem_singleton] at h''
          exact Or.inr (by simp [h''])
    · exact Or.inr (List.mem_cons_of_mem _ h')

/-- Unique merchants come from the description column. -/
theorem mem_uniqueFirst (l : List String) (a : String) (h : a ∈ uniqueFirst l) : a ∈ l := by
  rcases mem_uniqueFirst_aux l [] a h with h' | h'
  · exact absurd h' (List.not_mem_nil a)
  · exact h'

/-- The fallback label is in the vocabulary. -/
theorem other_mem_CATEGORIES : "other" ∈ CATEGORIES := by decide

/-- Every clamped JSON element is in the vocabulary. -/
theorem clampCategory_mem (c : PyJson) : clampCategory c ∈ CATEGORIES := by
  cases c with
  | str s =>
    show (if s ∈ CATEGORIES then s else "other") ∈ CATEGORIES
    split
    · next hin => exact hin
    · exact other_mem_CATEGORIES
  | null => exact show "other" ∈ CATEGORIES from other_mem_CATEGORIES
  | bool b => exact show "other" ∈ CATEGORIES from other_mem_CATEGORIES
  | num n => exact show "other" ∈ CATEGORIES from other_mem_CATEGORIES
  | arr l => exact show "other" ∈ CATEGORIES from other_mem_CATEGORIES
  | obj m => exact show "other" ∈ CATEGORIES from other_mem_CATEGORIES

/-- Every clamped string is in the vocabulary. -/
theorem clampStr_mem (s : String) : clampStr s ∈ CATEGORIES := by
  show (if s ∈ CATEGORIES then s else "other") ∈ CATEGORIES
  split
  · next hin => exact hin
  · exact other_mem_CATEGORIES

/-- Rounding to cents is the identity on differences of already-rounded
totals. -/
theorem round2_round2_sub (x y : ℚ) : round2 (round2 x - round2 y) = round2 x - round2 y := by
  unfold round2
  have h : (((round (x * 100) : ℤ) : ℚ) / 100 - ((round (y * 100) : ℤ) : ℚ) / 100) * 100 =
      ((round (x * 100) - round (y * 100) : ℤ) : ℚ) := by
    push_cast
    ring
  rw [h, round_intCast]
  push_cast
  ring

/-! ## The claims -/

/-- C1: For every sequence of save operations on the ledger store, two
stored transaction rows never share the same dedup hash (the digest of
`date|description|amount`); within a single save call a row whose hash
collides with an already-stored row increments `skipped_count` without
aborting the insertion of the remaining rows, while each successfully
inserted row increments `saved_count`. -/
theorem dedup_hash_uniqueness_and_counts :
    (∀ calls : List SaveCall, hashesDistinct (runSaves initDB calls).transactions) ∧
    (∀ (ct bk sf : Option String) (r : InTxn) (rs : List InTxn) (txns : List StoredTxn),
      (∃ t ∈ txns, t.txn_hash = rowHash r) →
      insertRows ct bk sf (r :: rs) txns =
        ((insertRows ct bk sf rs txns).1,
         (insertRows ct bk sf rs txns).2.1 + 1,
         (insertRows ct bk sf rs txns).2.2)) ∧
    (∀ (ct bk sf : Option String) (r : InTxn) (rs : List InTxn) (txns : List StoredTxn),
      (∀ t ∈ txns, t.txn_hash ≠ rowHash r) →
      insertRows ct bk sf (r :: rs) txns =
        ((insertRows ct bk sf rs (txns ++ [storedOf ct bk sf r])).1 + 1,
         (insertRows ct bk sf rs (txns ++ [storedOf ct bk sf r])).2.1,
         (insertRows ct bk sf rs (txns ++ [storedOf ct bk sf r])).2.2)) := by
  refine ⟨fun calls => runSaves_preserves calls initDB (by simp [initDB, hashesDistinct]), ?_, ?_⟩
  · intro ct bk sf r rs txns hcol
    have hc : txns.any (fun t => t.txn_hash = rowHash r) = true := by
      rw [List.any_eq_true]
      obtain ⟨t, ht, he⟩ := hcol
      exact ⟨t, ht, by simpa using he⟩
    simp [insertRows, hc]
  · intro ct bk sf r rs txns hno
    have hc : txns.any (fun t => t.txn_hash = rowHash r) = false := by
      rw [List.any_eq_false]
      intro t ht
      simpa using hno t ht
    simp [insertRows, hc]

/-- C1 witness: a duplicate of an already-stored row is skipped (count
goes up by one, store unchanged), and a save sequence from the fresh
database keeps hashes distinct. -/
theorem dedup_hash_uniqueness_and_counts_witness :
    insertRows none none none [⟨"2024-01-01", "A", 3, "other"⟩]
        [storedOf none none none ⟨"2024-01-01", "A", 3, "other"⟩] =
      ((insertRows none none none []
          [storedOf none none none ⟨"2024-01-01", "A", 3, "other"⟩]).1,
       (insertRows none none none []
          [storedOf none none none ⟨"2024-01-01", "A", 3, "other"⟩]).2.1 + 1,
       (insertRows none none none []
          [storedOf none none none ⟨"2024-01-01", "A", 3, "other"⟩]).2.2) ∧
    hashesDistinct (runSaves initDB [⟨[⟨"2024-01-01", "A", 3, "other"⟩,
      ⟨"2024-01-01", "A", 3, "other"⟩], some "jan.pdf", some "credit", some "Chase"⟩]).transactions :=
  ⟨dedup_hash_uniqueness_and_counts.2.1 none none none _ _ _
      ⟨storedOf none none none ⟨"2024-01-01", "A", 3, "other"⟩, by decide, by decide⟩,
   dedup_hash_uniqueness_and_counts.1 _⟩

/-- C2: For every save call whose `source_file` is given (truthy) and
already present in the imported-file registry, the call returns
`saved_count = 0` with `already_imported = true`, leaves the whole
database (hence the ledger row count) unchanged, and examines no row:
the result does not depend on the rows passed in. -/
theorem save_already_imported_short_circuit
    (db : DB) (rows : List InTxn) (f : String) (ct bk : Option String)
    (hf : f ≠ "") (him : is_file_imported db f = true) :
    save_transactions db rows (some f) ct bk = (⟨0, 0, true⟩, db) ∧
    ∀ rows' : List InTxn,
      save_transactions db rows' (some f) ct bk = save_transactions db rows (some f) ct bk := by
  have hcond : optTruthy (some f) ∧ is_file_imported db ((some f).getD "") := by
    constructor
    · simpa [optTruthy] using hf
    · simpa using him
  constructor
  · unfold save_transactions
    rw [if_pos hcond]
  · intro rows'
    unfold save_transactions
    rw [if_pos hcond, if_pos hcond]

/-- C2 witness: re-importing `jan.pdf` into a database that has it
registered returns `saved_count = 0, already_imported = true` and leaves
the database unchanged. -/
theorem save_already_imported_short_circuit_witness :
    save_transactions ⟨[], [⟨"jan.pdf", "jan.pdf", 3⟩]⟩ [⟨"2024-01-01", "A", 1, "other"⟩]
        (some "jan.pdf") none none
      = (⟨0, 0, true⟩, ⟨[], [⟨"jan.pdf", "jan.pdf", 3⟩]⟩) :=
  (save_already_imported_short_circuit ⟨[], [⟨"jan.pdf", "jan.pdf", 3⟩]⟩
    [⟨"2024-01-01", "A", 1, "other"⟩] "jan.pdf" none none (by decide) (by decide)).1

set_option maxRecDepth 100000 in
/-- C3 counterexample: the sanitizer is not idempotent.  On
`"123 456  7890"` (two spaces) no substitution pattern fires, the final
whitespace collapse yields `"123 456 7890"`, and a second application
matches the phone-number pattern, producing `"[PHONE]"`. -/
theorem sanitize_not_idempotent :
    sanitize_description (sanitize_description "123 456  7890") ≠
      sanitize_description "123 456  7890" ∧
    sanitize_description "123 456  7890" = "123 456 7890" ∧
    sanitize_description "123 456 7890" = "[PHONE]" := by
  refine ⟨?_, by decide, by decide⟩
  decide

set_option maxRecDepth 100000 in
/-- C3 amended: sanitize is not idempotent for all strings (the
whitespace collapse can enable a new pattern match on a second pass),
but on the spec's example it behaves as claimed: sanitizing
`"Card ending in 4321 PURCHASE"` produces a string containing the
literal tag `[CARD]` and not containing the digits `4321`, and sanitize
is idempotent on that input. -/
theorem sanitize_card_example :
    sanitize_description "Card ending in 4321 PURCHASE" = "Card [CARD] PURCHASE" ∧
    pyContains (sanitize_description "Card ending in 4321 PURCHASE") "[CARD]" = true ∧
    pyContains (sanitize_description "Card ending in 4321 PURCHASE") "4321" = false ∧
    sanitize_description (sanitize_description "Card ending in 4321 PURCHASE") =
      sanitize_description "Card ending in 4321 PURCHASE" := by
  refine ⟨by decide, by decide, by decide, by decide⟩

/-- C4: For every credit-dialect transaction line, the stored amount is
the printed magnitude (inflow) exactly when the description contains one
of the keywords `payment, return, refund, credit, reversal, cashback` as
a substring, and the negated magnitude otherwise; under a 2024-12-05
header date, `"11/15 AMAZON.COM 45.67"` yields date 2024-11-15 with
amount −45.67 and `"11/20 PAYMENT THANK YOU 200.00"` yields +200.00.
(The credit dialect is modelled from the spec: it is absent from the
checked-in parser.) -/
theorem credit_dialect_sign_inference :
    (∀ (hy hm mm dd : Nat) (desc : String) (mag : ℚ) (t : CreditTxn),
      parse_credit_line hy hm mm dd desc mag = some t →
      ((∃ k ∈ CREDIT_KEYWORDS, pyContains (pyLower desc) k = true) → t.amount = mag) ∧
      ((∀ k ∈ CREDIT_KEYWORDS, pyContains (pyLower desc) k = false) → t.amount = -mag)) ∧
    parse_credit_line 2024 12 11 15 "AMAZON.COM" (mkRat 4567 100) =
      some ⟨2024, 11, 15, "AMAZON.COM", -(mkRat 4567 100)⟩ ∧
    parse_credit_line 2024 12 11 20 "PAYMENT THANK YOU" (mkRat 20000 100) =
      some ⟨2024, 11, 20, "PAYMENT THANK YOU", mkRat 20000 100⟩ := by
  refine ⟨?_, by decide, by decide⟩
  intro hy hm mm dd desc mag t ht
  unfold parse_credit_line at ht
  dsimp only [] at ht
  split at ht
  · obtain rfl := Option.some_injective _ ht.symm
    constructor
    · intro ⟨k, hk, hck⟩
      have hkw : has_credit_keyword desc = true := by
        rw [has_credit_keyword, List.any_eq_true]
        exact ⟨k, hk, by simpa using hck⟩
      simp [credit_sign_amount, hkw]
    · intro hall
      have hkw : has_credit_keyword desc = false := by
        rw [has_credit_keyword, List.any_eq_false]
        intro k hk
        simpa using hall k hk
      simp [credit_sign_amount, hkw]
  · exact absurd ht (by simp)

/-- C4 witness: the keyword line gets the positive amount, the plain
merchant line the negated one. -/
theorem credit_dialect_sign_inference_witness :
    ((⟨2024, 11, 20, "PAYMENT THANK YOU", mkRat 20000 100⟩ : CreditTxn).amount =
      mkRat 20000 100) ∧
    ((⟨2024, 11, 15, "AMAZON.COM", -(mkRat 4567 100)⟩ : CreditTxn).amount =
      -(mkRat 4567 100)) :=
  ⟨(credit_dialect_sign_inference.1 2024 12 11 20 "PAYMENT THANK YOU" (mkRat 20000 100)
      ⟨2024, 11, 20, "PAYMENT THANK YOU", mkRat 20000 100⟩ (by decide)).1
      ⟨"payment", by decide, by decide⟩,
   (credit_dialect_sign_inference.1 2024 12 11 15 "AMAZON.COM" (mkRat 4567 100)
      ⟨2024, 11, 15, "AMAZON.COM", -(mkRat 4567 100)⟩ (by decide)).2 (by decide)⟩

/-- C5: In the multi-section grammar, a parsed line's year is the
header's start year when the header years agree, otherwise the start
year for line month ≥ start month and the end year below it; a line
whose resulting date fails calendar validation is skipped on its own
while the rest of the section is still parsed. -/
theorem multi_section_year_choice_and_skip :
    (∀ (yi : YearInfo) (mm dd : Nat) (desc : String) (a b : ℚ) (t : DraftTxn),
      parse_transaction_line mm dd desc a b yi = some t →
      t.year = (if yi.start_year = yi.end_year then yi.start_year
                else if mm ≥ yi.start_month then yi.start_year else yi.end_year) ∧
      t.month = mm ∧ t.day = dd) ∧
    (∀ (yi : YearInfo) (pre post : List String) (bad : String) (mm dd : Nat)
        (desc : String) (a b : ℚ),
      matchTransactionLine (pyStrip bad) = some (mm, dd, desc, a, b) →
      isValidDate (chooseYear yi mm) mm dd = false →
      parse_section_lines yi (pre ++ bad :: post) =
        parse_section_lines yi pre ++ parse_section_lines yi post) := by
  constructor
  · intro yi mm dd desc a b t ht
    unfold parse_transaction_line at ht
    dsimp only [] at ht
    split at ht
    · obtain rfl := Option.some_injective _ ht.symm
      exact ⟨rfl, rfl, rfl⟩
    · exact absurd ht (by simp)
  · intro yi pre post bad mm dd desc a b hmatch hinvalid
    have hskip : parse_section_line yi bad = none := by
      unfold parse_section_line
      dsimp only []
      split
      · rw [hmatch]
        simp [parse_transaction_line, hinvalid]
      · rfl
    unfold parse_section_lines
    rw [List.filterMap_append, List.filterMap_cons, hskip]

/-- C5 witness: under the 2024→2025 billing range with start month 12, a
December line gets 2024 (and its month/day), and the invalid line
`"02/30 X 1.00 1.00"` is dropped while the lines around it parse. -/
theorem multi_section_year_choice_and_skip_witness :
    ((⟨2024, 12, 28, "A", mkRat 1000 100, mkRat 100 100⟩ : DraftTxn).year =
      (if (2024 : Nat) = 2025 then (2024 : Nat) else if 12 ≥ 12 then 2024 else 2025) ∧
      (⟨2024, 12, 28, "A", mkRat 1000 100, mkRat 100 100⟩ : DraftTxn).month = 12 ∧
      (⟨2024, 12, 28, "A", mkRat 1000 100, mkRat 100 100⟩ : DraftTxn).day = 28) ∧
    parse_section_lines ⟨2024, 2025, 12⟩
        (["12/28 A 10.00 1.00"] ++ "02/30 X 1.00 1.00" :: ["01/05 B 2.00 3.00"]) =
      parse_section_lines ⟨2024, 2025, 12⟩ ["12/28 A 10.00 1.00"] ++
        parse_section_lines ⟨2024, 2025, 12⟩ ["01/05 B 2.00 3.00"] :=
  ⟨multi_section_year_choice_and_skip.1 ⟨2024, 2025, 12⟩ 12 28 "A" (mkRat 1000 100)
      (mkRat 100 100) ⟨2024, 12, 28, "A", mkRat 1000 100, mkRat 100 100⟩ (by decide),
   multi_section_year_choice_and_skip.2 ⟨2024, 2025, 12⟩ ["12/28 A 10.00 1.00"]
      ["01/05 B 2.00 3.00"] "02/30 X 1.00 1.00" 2 30 "X" (mkRat 100 100) (mkRat 100 100)
      (by decide) (by decide)⟩

/-- C6: When every description in the input is already present in the
persistent merchant-category cache, classification issues no external
request (the request count is zero and the result does not depend on the
external service at all), the cache is unchanged, and the returned
column is exactly the cache lookup of each row's description. -/
theorem cached_classification_pure_lookup
    (oracle : List String → Option PyJson) (cache : List (String × String))
    (descs : List String)
    (h : ∀ d ∈ descs, (cache.lookup d).isSome = true) :
    categorize oracle cache descs =
      .ok ⟨descs.map (fun d => (cache.lookup d).getD "other"), cache, 0⟩ ∧
    ∀ oracle' : List String → Option PyJson,
      categorize oracle cache descs = categorize oracle' cache descs := by
  have hunc : (uniqueFirst descs).filter (fun m => (cache.lookup m).isNone) = [] := by
    rw [List.filter_eq_nil_iff]
    intro a ha
    have hmem := mem_uniqueFirst descs a ha
    have := h a hmem
    simp [Option.isNone_iff_eq_none, Option.isSome_iff_ne_none] at this ⊢
    exact this
  constructor
  · unfold categorize
    dsimp only []
    rw [hunc]
    rfl
  · intro oracle'
    unfold categorize
    dsimp only []
    rw [hunc]
    rfl

/-- C6 witness: two rows of a cached merchant classify by lookup alone,
with zero external requests. -/
theorem cached_classification_pure_lookup_witness :
    categorize (fun _ => none) [("STARBUCKS", "dining")] ["STARBUCKS", "STARBUCKS"] =
      .ok ⟨["dining", "dining"], [("STARBUCKS", "dining")], 0⟩ := by
  have hthm := (cached_classification_pure_lookup (fun _ => none) [("STARBUCKS", "dining")]
    ["STARBUCKS", "STARBUCKS"] (by decide)).1
  rw [hthm]
  rfl

/-- C7 counterexample: a response decoding to the JSON number `5` (valid
JSON, not an array) makes `_parse_llm_response` raise an uncaught
`TypeError` at `len(categories)` — the batch fails instead of yielding
`n` labels. -/
theorem llm_response_number_crashes :
    parse_llm_response (some (PyJson.num 5)) 1 = .error "TypeError: object has no len()" := rfl

/-- C7 amended: for every response that fails to decode or decodes to a
JSON array, the batch never fails: a decode failure yields `n` copies of
`"other"`, a short array is padded and a long one truncated to length
`n`, and every label outside the vocabulary is coerced to `"other"`, so
the result has exactly `n` labels, each in the vocabulary.  (A response
decoding to a non-array value can instead raise an uncaught dynamic
error, as the counterexample shows.) -/
theorem llm_response_always_n_labels (decoded : Option PyJson) (n : Nat)
    (h : decoded = none ∨ ∃ l, decoded = some (PyJson.arr l)) :
    ∃ out, parse_llm_response decoded n = .ok out ∧ out.length = n ∧
      ∀ c ∈ out, c ∈ CATEGORIES := by
  rcases h with h | ⟨l, h⟩ <;> subst h
  · refine ⟨_, rfl, ?_, ?_⟩
    · simp
    · intro c hc
      rw [List.eq_of_mem_replicate hc]
      decide
  · unfold parse_llm_response pyLen
    dsimp only []
    rcases Nat.lt_trichotomy l.length n with hlen | hlen | hlen
    · rw [if_pos hlen]
      refine ⟨_, rfl, ?_, ?_⟩
      · simp
        omega
      · intro c hc
        rw [List.mem_map] at hc
        obtain ⟨j, _, rfl⟩ := hc
        exact clampCategory_mem j
    · rw [if_neg (by omega), if_neg (by omega)]
      refine ⟨_, rfl, ?_, ?_⟩
      · simp [hlen]
      · intro c hc
        rw [List.mem_map] at hc
        obtain ⟨j, _, rfl⟩ := hc
        exact clampCategory_mem j
    · rw [if_neg (by omega), if_pos hlen]
      refine ⟨_, rfl, ?_, ?_⟩
      · simp
        omega
      · intro c hc
        rw [List.mem_map] at hc
        obtain ⟨j, _, rfl⟩ := hc
        exact clampCategory_mem j

/-- C7 witness: an undecodable response for a batch of two yields two
in-vocabulary labels. -/
theorem llm_response_always_n_labels_witness :
    ∃ out, parse_llm_response none 2 = .ok out ∧ out.length = 2 ∧
      ∀ c ∈ out, c ∈ CATEGORIES :=
  llm_response_always_n_labels none 2 (Or.inl rfl)

/-- C8 amended: scalar two-period comparison returns totals with
`difference = total2 − total1` exactly, and `percent_change` equal to
`difference / |total1| × 100` rounded to one decimal when `total1 ≠ 0`
and `0` when `total1 = 0`; the operation is total (no division fault). -/
theorem compare_periods_scalar_totals (df : List ATxn) (p1s p1e p2s p2e : Nat) :
    ∃ t1 t2 : ℚ, compare_periods df p1s p1e p2s p2e "total" =
      .total (natRepr p1s ++ " to " ++ natRepr p1e) (natRepr p2s ++ " to " ++ natRepr p2e)
        t1 t2 (t2 - t1)
        (if t1 = 0 then 0 else round1 ((t2 - t1) / |t1| * 100)) := by
  refine ⟨round2 (sumAmounts (df.filter
            (fun t => decide (p1s ≤ t.date) && decide (t.date ≤ p1e)))),
          round2 (sumAmounts (df.filter
            (fun t => decide (p2s ≤ t.date) && decide (t.date ≤ p2e)))), ?_⟩
  unfold compare_periods
  dsimp only []
  rw [if_pos rfl, round2_round2_sub]
  by_cases h : round2 (sumAmounts (df.filter
      (fun t => decide (p1s ≤ t.date) && decide (t.date ≤ p1e)))) = 0
  · rw [if_neg (by simp [h]), if_pos h]
  · rw [if_pos h, if_neg h]

/-- C8 counterexample: with period totals 3 and 1, the code reports
`percent_change = −66.7` (one-decimal rounding of −200/3), which differs
from the exact `difference / |total1| × 100 = −200/3`; so the claimed
exact equation fails on the code, though the rounded one holds. -/
theorem compare_periods_pct_is_rounded :
    compare_periods [⟨20240105, "A", 3, "other", none, none⟩,
        ⟨20240205, "B", 1, "other", none, none⟩]
        20240101 20240131 20240201 20240228 "total" =
      .total "20240101 to 20240131" "20240201 to 20240228" 3 1 (-2) (mkRat (-667) 10) ∧
    mkRat (-667) 10 ≠ ((1 : ℚ) - 3) / |(3 : ℚ)| * 100 := by
  constructor
  · have hp1 : (List.filter
        (fun (t : ATxn) => decide (20240101 ≤ t.date) && decide (t.date ≤ 20240131))
        [(⟨20240105, "A", 3, "other", none, none⟩ : ATxn),
         ⟨20240205, "B", 1, "other", none, none⟩]) =
        [⟨20240105, "A", 3, "other", none, none⟩] := by decide
    have hp2 : (List.filter
        (fun (t : ATxn) => decide (20240201 ≤ t.date) && decide (t.date ≤ 20240228))
        [(⟨20240105, "A", 3, "other", none, none⟩ : ATxn),
         ⟨20240205, "B", 1, "other", none, none⟩]) =
        [⟨20240205, "B", 1, "other", none, none⟩] := by decide
    have hs1 : sumAmounts [(⟨20240105, "A", 3, "other", none, none⟩ : ATxn)] = 3 := by
      simp [sumAmounts]
    have hs2 : sumAmounts [(⟨20240205, "B", 1, "other", none, none⟩ : ATxn)] = 1 := by
      simp [sumAmounts]
    have hr3 : round2 (3 : ℚ) = 3 := by unfold round2; norm_num [round_eq]
    have hr1 : round2 (1 : ℚ) = 1 := by unfold round2; norm_num [round_eq]
    have hd : round2 ((1 : ℚ) - 3) = -2 := by unfold round2; norm_num [round_eq]
    have hpct : round1 ((-2 : ℚ) / |(3 : ℚ)| * 100) = mkRat (-667) 10 := by
      rw [Rat.mkRat_eq_div]
      unfold round1
      norm_num [round_eq]
    unfold compare_periods
    dsimp only []
    rw [if_pos rfl, hp1, hp2, hs1, hs2, hr3, hr1, hd, if_pos (by norm_num), hpct]
    decide
  · rw [Rat.mkRat_eq_div]
    norm_num

/-- C9: The free-form SQL path rejects, with a hard error and before any
execution (the result does not depend on the execution function), every
input whose stripped lower-cased text does not start with `select`, and
executes every input that does. -/
theorem run_query_select_guard (exec exec' : String → List (List String)) (sql : String) :
    (pyStartsWith (pyLower (pyStrip sql)) "select" = false →
      run_query exec sql = .error "Only SELECT queries allowed" ∧
      run_query exec sql = run_query exec' sql) ∧
    (pyStartsWith (pyLower (pyStrip sql)) "select" = true →
      run_query exec sql = .ok (exec sql)) := by
  constructor
  · intro hno
    unfold run_query
    rw [if_neg (by simp [hno]), if_neg (by simp [hno])]
    exact ⟨rfl, rfl⟩
  · intro hyes
    unfold run_query
    rw [if_pos (by simp [hyes])]

/-- C9 witness: a `DROP TABLE` is rejected with the hard error, a
mixed-case padded `SELECT` executes. -/
theorem run_query_select_guard_witness :
    run_query (fun _ => []) "DROP TABLE transactions" = .error "Only SELECT queries allowed" ∧
    run_query (fun _ => [["1"]]) "  SeLeCt 1 FROM transactions " = .ok [["1"]] :=
  ⟨((run_query_select_guard (fun _ => []) (fun _ => []) "DROP TABLE transactions").1
      (by decide)).1,
   (run_query_select_guard (fun _ => [["1"]]) (fun _ => [["1"]])
      "  SeLeCt 1 FROM transactions ").2 (by decide)⟩

/-- C10 counterexample: with a ledger whose single row does not match the
`description_contains` filter, the sum call returns the no-matching
record, not a breakdown record — the claim fails when nothing matches. -/
theorem aggregate_sum_breakdown_empty_filter :
    aggregate [⟨20240101, "COFFEE SHOP", -3, "dining", none, none⟩] "sum" (some "category")
        none none none (some "AMAZON") false false none none =
      .noMatch 0 0 "No matching transactions" ∧
    (aggregate [⟨20240101, "COFFEE SHOP", -3, "dining", none, none⟩] "sum" (some "category")
        none none none (some "AMAZON") false false none none).isBreakdown = false := by
  constructor
  · decide
  · decide

/-- C10 amended: whenever at least one transaction survives the filters,
a sum call with a non-empty `description_contains` and both exclusive
flags off returns the breakdown record (absolute expense total, refund
total, net, and the three counts, each rounded as the code rounds) and
ignores any supplied `group_by`. -/
theorem aggregate_merchant_breakdown
    (df : List ATxn) (group_by group_by' : Option String) (sd ed : Option Nat)
    (cat : Option String) (desc : String) (ct bk : Option String)
    (hdesc : desc ≠ "")
    (hne : applyFilters df sd ed cat (some desc) ct bk ≠ []) :
    aggregate df "sum" group_by sd ed cat (some desc) false false ct bk =
      (let data := applyFilters df sd ed cat (some desc) ct bk
       AggResult.breakdown
         (round2 |sumAmounts (data.filter (fun t => t.amount < 0))|)
         (round2 (sumAmounts (data.filter (fun t => 0 < t.amount))))
         (round2 (sumAmounts data))
         data.length
         (data.filter (fun t => t.amount < 0)).length
         (data.filter (fun t => 0 < t.amount)).length) ∧
    aggregate df "sum" group_by sd ed cat (some desc) false false ct bk =
      aggregate df "sum" group_by' sd ed cat (some desc) false false ct bk := by
  have hcond : optTruthy (some desc) ∧ "sum" = "sum" ∧ false = false ∧ false = false :=
    ⟨by simpa [optTruthy] using hdesc, rfl, rfl, rfl⟩
  have hmain : ∀ gb : Option String,
      aggregate df "sum" gb sd ed cat (some desc) false false ct bk =
      (let data := applyFilters df sd ed cat (some desc) ct bk
       AggResult.breakdown
         (round2 |sumAmounts (data.filter (fun t => t.amount < 0))|)
         (round2 (sumAmounts (data.filter (fun t => 0 < t.amount))))
         (round2 (sumAmounts data))
         data.length
         (data.filter (fun t => t.amount < 0)).length
         (data.filter (fun t => 0 < t.amount)).length) := by
    intro gb
    unfold aggregate
    dsimp only []
    rw [if_neg (by simpa [List.isEmpty_iff] using hne), if_pos hcond]
  exact ⟨hmain group_by, (hmain group_by).trans (hmain group_by').symm⟩

/-- C10 witness: a matching one-row ledger takes the breakdown path and
gives the same answer under two different `group_by` values. -/
theorem aggregate_merchant_breakdown_witness :
    aggregate [⟨20240101, "AMAZON MKTP", -3, "shopping", none, none⟩] "sum" (some "category")
        none none none (some "AMAZON") false false none none =
      (let data := applyFilters [⟨20240101, "AMAZON MKTP", -3, "shopping", none, none⟩]
        none none none (some "AMAZON") none none
       AggResult.breakdown
         (round2 |sumAmounts (data.filter (fun t => t.amount < 0))|)
         (round2 (sumAmounts (data.filter (fun t => 0 < t.amount))))
         (round2 (sumAmounts data))
         data.length
         (data.filter (fun t => t.amount < 0)).length
         (data.filter (fun t => 0 < t.amount)).length) ∧
    aggregate [⟨20240101, "AMAZON MKTP", -3, "shopping", none, none⟩] "sum" (some "category")
        none none none (some "AMAZON") false false none none =
      aggregate [⟨20240101, "AMAZON MKTP", -3, "shopping", none, none⟩] "sum" (some "month")
        none none none (some "AMAZON") false false none none :=
  aggregate_merchant_breakdown [⟨20240101, "AMAZON MKTP", -3, "shopping", none, none⟩]
    (some "category") (some "month") none none none "AMAZON" none none
    (by decide) (by decide)
